import Mathlib

/-!
Verification of the Jaeger dual-protocol trace receiver's translation core
(`jaegerreceiver`). The repository snapshot contains the receiver's test file
(`TestReception`, `TestGRPCReception`, `expectedTraceData`, `traceFixture`,
`grpcFixture`); the translation functions themselves are exercised only through
those tests, so they are modelled here from the specification, pinned down by
the fixtures and the expected output, which are embedded verbatim from the
source.

Conventions of the embedding:
- bytes are `Nat` values below 256; identifiers are byte lists;
- times are `Nat` nanoseconds since the epoch, durations are `Nat` nanoseconds;
- Go `int64` tag values are `Int`; the `float64` payload is carried as its
  canonical decimal text (no floating-point arithmetic is performed on it);
- Go maps are association lists built with last-occurrence-wins insertion.
-/

namespace JaegerReceiver

/-! ### Identifier codec -/

/-- Big-endian unsigned value of a byte list (the first byte is the most
significant), as computed by `binary.BigEndian.Uint64` and by
`model.TraceID.Unmarshal` on the wire bytes. -/
def beUint : List Nat → Nat
  | [] => 0
  | b :: rest => b * 256 ^ rest.length + beUint rest

/-- Big-endian encoding of a value into exactly `w` bytes, most significant
byte first. -/
def beBytes : Nat → Nat → List Nat
  | 0, _ => []
  | w + 1, n => (n / 256 ^ w) % 256 :: beBytes w (n % 256 ^ w)

/-- Decode failure for identifier byte sequences of the wrong width. -/
inductive IdError where
  | invalidLength (got expected : Nat)
deriving DecidableEq

/-- Modelled from the spec: `decodeTraceID(bytes) -> TraceID | InvalidLengthError`.
The input must be exactly 16 bytes; the internal wire identifier is the
(high, low) pair of big-endian 64-bit halves, as in `model.TraceID.Unmarshal`. -/
def decodeTraceID (bs : List Nat) : Except IdError (Nat × Nat) :=
  if bs.length = 16 then
    Except.ok (beUint (bs.take 8), beUint (bs.drop 8))
  else
    Except.error (IdError.invalidLength bs.length 16)

/-- Modelled from the spec: `decodeSpanID(bytes) -> SpanID | InvalidLengthError`.
The input must be exactly 8 bytes; the identifier is carried as the fixed-width
big-endian integer, as in `model.NewSpanID(binary.BigEndian.Uint64(bytes))`. -/
def decodeSpanID (bs : List Nat) : Except IdError Nat :=
  if bs.length = 8 then
    Except.ok (beUint bs)
  else
    Except.error (IdError.invalidLength bs.length 8)

/-- Re-encoding of a (high, low) trace identifier into the internal 16-byte
form used by the expected `TraceId` field. -/
def traceIDToBytes (id : Nat × Nat) : List Nat :=
  beBytes 8 id.1 ++ beBytes 8 id.2

/-- Re-encoding of a span identifier into the internal 8-byte form used by the
expected `SpanId` field. -/
def spanIDToBytes (id : Nat) : List Nat :=
  beBytes 8 id

/-! ### Tag / attribute model -/

/-- Wire tag value: the tagged union over bool, string, int64, float64 and
binary carried by a Jaeger `KeyValue`. The float64 payload is its canonical
decimal text. -/
inductive TagValue where
  | vBool (b : Bool)
  | vStr (s : String)
  | vInt (i : Int)
  | vDouble (canonical : String)
  | vBinary (bytes : List Nat)
deriving DecidableEq

/-- A wire key/value tag (Jaeger `model.KeyValue`). -/
structure KeyValue where
  key : String
  value : TagValue
deriving DecidableEq

/-- Internal attribute value (OpenCensus `tracepb.AttributeValue`): the target
schema has bool, string, int and double variants but no binary variant. -/
inductive AttributeValue where
  | boolValue (b : Bool)
  | stringValue (s : String)
  | intValue (i : Int)
  | doubleValue (canonical : String)
deriving DecidableEq

/-- Type tag of a wire value, used to state type preservation. -/
inductive TagType where
  | tBool
  | tString
  | tInt
  | tDouble
  | tBinary
deriving DecidableEq

/-- Type tag carried by a wire tag value. -/
def TagValue.typeTag : TagValue → TagType
  | .vBool _ => .tBool
  | .vStr _ => .tString
  | .vInt _ => .tInt
  | .vDouble _ => .tDouble
  | .vBinary _ => .tBinary

/-- Type tag carried by an internal attribute value. -/
def AttributeValue.typeTag : AttributeValue → TagType
  | .boolValue _ => .tBool
  | .stringValue _ => .tString
  | .intValue _ => .tInt
  | .doubleValue _ => .tDouble

/-- Modelled from the spec: best-effort stringification of a binary payload
(§7: an unsupported tag type "is coerced to a best-effort representation");
the exact text form is not fixed by the spec. -/
def binaryToString (bs : List Nat) : String :=
  toString bs

/-- Modelled from the spec: translation of one wire tag value into the typed
internal attribute value (gRPC inbound path preserves native types exactly;
binary, unsupported by the target schema, is stringified best-effort). -/
def translateTagValue : TagValue → AttributeValue
  | .vBool b => .boolValue b
  | .vStr s => .stringValue s
  | .vInt i => .intValue i
  | .vDouble c => .doubleValue c
  | .vBinary bs => .stringValue (binaryToString bs)

/-- Modelled from the spec: string coercion of a wire tag value for a
string-only target schema, using canonical text forms: `true`/`false` for
bools, the decimal form for integers, the canonical decimal text for doubles. -/
def coerceToString : TagValue → String
  | .vBool true => "true"
  | .vBool false => "false"
  | .vStr s => s
  | .vInt i => toString i
  | .vDouble c => c
  | .vBinary bs => binaryToString bs

/-- Reserved tag key for the status code (`tracetranslator.TagStatusCode`). -/
def tagStatusCode : String := "status.code"

/-- Reserved tag key for the status message (`tracetranslator.TagStatusMsg`). -/
def tagStatusMsg : String := "status.message"

/-- Reserved tag key for the boolean error flag. -/
def tagError : String := "error"

/-- First tag value carried under `key`, if any. -/
def findTag (key : String) (tags : List KeyValue) : Option TagValue :=
  (tags.find? (fun kv => decide (kv.key = key))).map KeyValue.value

/-- Modelled from the spec: extraction of the numeric status code from the
reserved `status.code` tag. -/
def statusCodeFromTags (tags : List KeyValue) : Option Int :=
  match findTag tagStatusCode tags with
  | some (.vInt i) => some i
  | _ => none

/-- Modelled from the spec: extraction of the status message from the reserved
`status.message` tag. -/
def statusMsgFromTags (tags : List KeyValue) : String :=
  match findTag tagStatusMsg tags with
  | some (.vStr s) => s
  | _ => ""

/-- Whether the tag sequence carries a boolean `error` tag with value true. -/
def hasErrorTag (tags : List KeyValue) : Bool :=
  tags.any (fun kv => decide (kv.key = tagError ∧ kv.value = TagValue.vBool true))

/-- Internal span status: code plus free-text message. -/
structure Status where
  code : Int
  message : String
deriving DecidableEq

/-- The "ok" status code (zero). -/
def okStatusCode : Int := 0

/-- Modelled from the spec: the "generic failure code" implied by an
`error=true` tag with no explicit status code (OpenCensus `StatusCodeUnknown`). -/
def defaultErrorCode : Int := 2

/-- Modelled from the spec: status derivation from a wire tag sequence. An
explicit `status.code` tag wins; otherwise an `error=true` tag maps to the
default failure code; otherwise the status is ok / zero. -/
def statusFromTags (tags : List KeyValue) : Status :=
  match statusCodeFromTags tags with
  | some c => { code := c, message := statusMsgFromTags tags }
  | none =>
    if hasErrorTag tags then
      { code := defaultErrorCode, message := statusMsgFromTags tags }
    else
      { code := okStatusCode, message := statusMsgFromTags tags }

/-- Whether a key is one of the two reserved status keys that are removed from
the generic attribute map. -/
def isReservedKey (k : String) : Bool :=
  decide (k = tagStatusCode) || decide (k = tagStatusMsg)

/-- Last-occurrence-wins insertion into an attribute association list (the
model of Go map assignment). -/
def insertAttr (m : List (String × AttributeValue)) (k : String) (v : AttributeValue) :
    List (String × AttributeValue) :=
  m.filter (fun p => !(decide (p.1 = k))) ++ [(k, v)]

/-- Modelled from the spec: the generic attribute map of a translated span —
all wire tags except the two reserved status keys, with native types preserved,
last occurrence winning on duplicate keys. -/
def attributesFromTags (tags : List KeyValue) : List (String × AttributeValue) :=
  tags.foldl
    (fun m kv => if isReservedKey kv.key then m else insertAttr m kv.key (translateTagValue kv.value))
    []

/-- Last-occurrence-wins insertion into a string-only attribute list. -/
def insertStringAttr (m : List (String × String)) (k v : String) : List (String × String) :=
  m.filter (fun p => !(decide (p.1 = k))) ++ [(k, v)]

/-- Modelled from the spec: process-level attributes land in the string-only
`Node.Attributes` map, so every value is coerced to its canonical string form. -/
def stringAttributesFromTags (tags : List KeyValue) : List (String × String) :=
  tags.foldl (fun m kv => insertStringAttr m kv.key (coerceToString kv.value)) []

/-- Association-list lookup on the attribute map. -/
def lookupAttr (k : String) : List (String × AttributeValue) → Option AttributeValue
  | [] => none
  | (k2, v) :: rest => if k2 = k then some v else lookupAttr k rest

/-! ### Wire batch structures -/

/-- Jaeger reference kinds (`model.SpanRefType`). -/
inductive SpanRefType where
  | childOf
  | followsFrom
deriving DecidableEq

/-- A typed reference to another span (`model.SpanRef`, gRPC wire form). -/
structure SpanRef where
  traceID : Nat × Nat
  spanID : Nat
  refType : SpanRefType
deriving DecidableEq

/-- A span on the gRPC wire (`model.Span`): identifiers as fixed-width
integers, start time plus duration, typed tags, and an explicit references
list; there is no separate parent field. -/
structure ModelSpan where
  traceID : Nat × Nat
  spanID : Nat
  operationName : String
  startTime : Nat
  duration : Nat
  tags : List KeyValue
  references : List SpanRef
deriving DecidableEq

/-- Batch-level process metadata (`model.Process` / the Thrift process):
service name plus typed tags. -/
structure Process where
  serviceName : String
  tags : List KeyValue
deriving DecidableEq

/-- The gRPC wire batch (`model.Batch` inside `api_v2.PostSpansRequest`). -/
structure ModelBatch where
  process : Process
  spans : List ModelSpan
deriving DecidableEq

/-- Modelled from the spec: a span on the legacy HTTP/Thrift wire —
identifiers as fixed-width integers, an optional single `parentSpanID` field
(the legacy causal-link form, §4.3), start and end times, and typed tags. -/
structure ThriftSpan where
  traceID : Nat × Nat
  spanID : Nat
  parentSpanID : Option Nat
  operationName : String
  startTime : Nat
  endTime : Nat
  tags : List KeyValue
deriving DecidableEq

/-- Modelled from the spec: the legacy HTTP/Thrift wire batch. -/
structure ThriftBatch where
  process : Process
  spans : List ThriftSpan
deriving DecidableEq

/-! ### Internal (OpenCensus) trace data -/

/-- Nanoseconds per second. -/
def nsPerSecond : Nat := 1000000000

/-- Protobuf timestamp as produced by `internal.TimeToTimestamp`. -/
structure Timestamp where
  seconds : Nat
  nanos : Nat
deriving DecidableEq

/-- Conversion of a nanosecond instant into the internal timestamp. -/
def timeToTimestamp (t : Nat) : Timestamp :=
  { seconds := t / nsPerSecond, nanos := t % nsPerSecond }

/-- Internal link kinds (`tracepb.Span_Link_Type`). -/
inductive LinkType where
  | parentLinkedSpan
  | childLinkedSpan
  | unspecified
deriving DecidableEq

/-- Internal link to another span (`tracepb.Span_Link`). -/
structure Link where
  traceId : List Nat
  spanId : List Nat
  linkType : LinkType
deriving DecidableEq

/-- Internal node (`commonpb.Node`): service name plus the string-only
attribute map (the empty `LibraryInfo`/`Identifier` sub-messages are constant
and omitted). -/
structure Node where
  serviceName : String
  attributes : List (String × String)
deriving DecidableEq

/-- Internal span (`tracepb.Span`). -/
structure OCSpan where
  traceId : List Nat
  spanId : List Nat
  parentSpanId : Option (List Nat)
  name : String
  startTime : Timestamp
  endTime : Timestamp
  status : Status
  attributes : List (String × AttributeValue)
  links : List Link
deriving DecidableEq

/-- Internal trace-data envelope (`consumerdata.TraceData`). -/
structure TraceData where
  node : Node
  spans : List OCSpan
  sourceFormat : String
deriving DecidableEq

/-! ### Translation -/

/-- The source-format marker this receiver stamps on every envelope. -/
def sourceFormatJaeger : String := "jaeger"

/-- The internal child-of link produced for a parent reference. -/
def childOfLink (tid : Nat × Nat) (parent : Nat) : Link :=
  { traceId := traceIDToBytes tid, spanId := spanIDToBytes parent,
    linkType := LinkType.parentLinkedSpan }

/-- Modelled from the spec: reference-by-reference translation preserving kind
(§4.3); a child-of reference becomes a parent-linked-span link. The target enum
has no follows-from kind, so that case maps to unspecified (the fixtures pin
only the child-of case). -/
def translateRef (r : SpanRef) : Link :=
  { traceId := traceIDToBytes r.traceID, spanId := spanIDToBytes r.spanID,
    linkType :=
      match r.refType with
      | SpanRefType.childOf => LinkType.parentLinkedSpan
      | SpanRefType.followsFrom => LinkType.unspecified }

/-- Parent span of a gRPC wire span: the target of its first child-of
reference, if any. -/
def grpcParentOf (s : ModelSpan) : Option Nat :=
  (s.references.find? (fun r => decide (r.refType = SpanRefType.childOf))).map SpanRef.spanID

/-- Modelled from the spec: translation of one gRPC wire span into the
internal span — identifiers re-encoded to bytes, end time reconciled from
start plus duration, status extracted from the reserved tags, references
translated preserving kind. -/
def translateModelSpan (s : ModelSpan) : OCSpan :=
  { traceId := traceIDToBytes s.traceID
    spanId := spanIDToBytes s.spanID
    parentSpanId := (grpcParentOf s).map spanIDToBytes
    name := s.operationName
    startTime := timeToTimestamp s.startTime
    endTime := timeToTimestamp (s.startTime + s.duration)
    status := statusFromTags s.tags
    attributes := attributesFromTags s.tags
    links := s.references.map translateRef }

/-- Modelled from the spec: translation of one legacy HTTP/Thrift wire span —
identifiers re-encoded to bytes, start/end copied, status extracted from the
reserved tags, and a single `parentSpanID` field translated into exactly one
child-of reference (§4.3); a span with no parent field is a root with an empty
reference list. -/
def translateThriftSpan (s : ThriftSpan) : OCSpan :=
  { traceId := traceIDToBytes s.traceID
    spanId := spanIDToBytes s.spanID
    parentSpanId := s.parentSpanID.map spanIDToBytes
    name := s.operationName
    startTime := timeToTimestamp s.startTime
    endTime := timeToTimestamp s.endTime
    status := statusFromTags s.tags
    attributes := attributesFromTags s.tags
    links :=
      match s.parentSpanID with
      | some p => [childOfLink s.traceID p]
      | none => [] }

/-- Modelled from the spec: the process becomes the internal node, its typed
tags coerced into the string-only node attribute map. -/
def translateProcess (p : Process) : Node :=
  { serviceName := p.serviceName, attributes := stringAttributesFromTags p.tags }

/-- Modelled from the spec: `translateBatch` for the legacy HTTP/Thrift
adapter — node built once, spans mapped in order, envelope stamped with the
jaeger source-format marker. -/
def translateThriftBatch (b : ThriftBatch) : TraceData :=
  { node := translateProcess b.process
    spans := b.spans.map translateThriftSpan
    sourceFormat := sourceFormatJaeger }

/-- Modelled from the spec: `translateBatch` for the gRPC adapter — node built
once, spans mapped in order, envelope stamped with the jaeger source-format
marker. -/
def translateModelBatch (b : ModelBatch) : TraceData :=
  { node := translateProcess b.process
    spans := b.spans.map translateModelSpan
    sourceFormat := sourceFormatJaeger }

/-! ### Fixtures (embedded from the receiver's test file) -/

/-- The 16 trace-ID bytes shared by both fixtures. -/
def fixtureTraceIDBytes : List Nat :=
  [0xF1, 0xF2, 0xF3, 0xF4, 0xF5, 0xF6, 0xF7, 0xF8, 0xF9, 0xFA, 0xFB, 0xFC, 0xFD, 0xFE, 0xFF, 0x80]

/-- The 8 parent-span-ID bytes shared by both fixtures. -/
def fixtureParentSpanIDBytes : List Nat :=
  [0x1F, 0x1E, 0x1D, 0x1C, 0x1B, 0x1A, 0x19, 0x18]

/-- The 8 child-span-ID bytes shared by both fixtures. -/
def fixtureChildSpanIDBytes : List Nat :=
  [0xAF, 0xAE, 0xAD, 0xAC, 0xAB, 0xAA, 0xA9, 0xA8]

/-- The fixture trace ID in wire form, as unmarshalled from its bytes. -/
def fixtureTraceID : Nat × Nat :=
  (beUint (fixtureTraceIDBytes.take 8), beUint (fixtureTraceIDBytes.drop 8))

/-- The fixture parent span ID in wire form. -/
def fixtureParentSpanID : Nat := beUint fixtureParentSpanIDBytes

/-- The fixture child span ID in wire form. -/
def fixtureChildSpanID : Nat := beUint fixtureChildSpanIDBytes

/-- `trace.StatusCodeNotFound`. -/
def statusCodeNotFound : Int := 5

/-- `trace.StatusCodeInternal`. -/
def statusCodeInternal : Int := 13

/-- The test instant `time.Unix(1542158650, 536343000)` in nanoseconds. -/
def fixtureNow : Nat := 1542158650 * nsPerSecond + 536343000

/-- Ten minutes, in nanoseconds. -/
def fixtureD10min : Nat := 600 * nsPerSecond

/-- Two seconds, in nanoseconds. -/
def fixtureD2sec : Nat := 2 * nsPerSecond

/-- The fixture process: service `issaTest` with a bool, a string and an int64
tag, shared by both wire fixtures. -/
def fixtureProcess : Process :=
  { serviceName := "issaTest"
    tags := [⟨"bool", TagValue.vBool true⟩, ⟨"string", TagValue.vStr "yes"⟩,
             ⟨"int64", TagValue.vInt 10000000⟩] }

/-- The status tags carried by fixture span A (`DBSearch`). -/
def fixtureTagsA : List KeyValue :=
  [⟨tagStatusMsg, TagValue.vStr "Stale indices"⟩,
   ⟨tagStatusCode, TagValue.vInt statusCodeNotFound⟩,
   ⟨tagError, TagValue.vBool true⟩]

/-- The status tags carried by fixture span B (`ProxyFetch`). -/
def fixtureTagsB : List KeyValue :=
  [⟨tagStatusMsg, TagValue.vStr "Frontend crash"⟩,
   ⟨tagStatusCode, TagValue.vInt statusCodeInternal⟩,
   ⟨tagError, TagValue.vBool true⟩]

/-- Span A of the gRPC fixture (`grpcFixture` in the source): `DBSearch`,
start `t1`, duration `d1`, one explicit child-of reference to the parent. -/
def grpcFixtureSpanA (t1 d1 : Nat) : ModelSpan :=
  { traceID := fixtureTraceID
    spanID := fixtureChildSpanID
    operationName := "DBSearch"
    startTime := t1
    duration := d1
    tags := fixtureTagsA
    references := [{ traceID := fixtureTraceID, spanID := fixtureParentSpanID,
                     refType := SpanRefType.childOf }] }

/-- Span B of the gRPC fixture: `ProxyFetch`, start `t1 + d1`, duration `d2`,
no references. -/
def grpcFixtureSpanB (t1 d1 d2 : Nat) : ModelSpan :=
  { traceID := fixtureTraceID
    spanID := fixtureParentSpanID
    operationName := "ProxyFetch"
    startTime := t1 + d1
    duration := d2
    tags := fixtureTagsB
    references := [] }

/-- The gRPC wire fixture `grpcFixture(t1, d1, d2)` from the source. -/
def grpcFixture (t1 d1 d2 : Nat) : ModelBatch :=
  { process := fixtureProcess
    spans := [grpcFixtureSpanA t1 d1, grpcFixtureSpanB t1 d1 d2] }

/-- Modelled from the spec: span A of the scenario as it stands on the legacy
HTTP/Thrift wire (the `traceFixture` spans after the legacy exporter encodes
status into the reserved tags): parent carried in the single `parentSpanID`
field, start `t1`, end `t2`. -/
def thriftFixtureSpanA (t1 t2 : Nat) : ThriftSpan :=
  { traceID := fixtureTraceID
    spanID := fixtureChildSpanID
    parentSpanID := some fixtureParentSpanID
    operationName := "DBSearch"
    startTime := t1
    endTime := t2
    tags := fixtureTagsA }

/-- Modelled from the spec: span B of the scenario on the legacy HTTP/Thrift
wire — no parent field, start `t2`, end `t3`. -/
def thriftFixtureSpanB (t2 t3 : Nat) : ThriftSpan :=
  { traceID := fixtureTraceID
    spanID := fixtureParentSpanID
    parentSpanID := none
    operationName := "ProxyFetch"
    startTime := t2
    endTime := t3
    tags := fixtureTagsB }

/-- Modelled from the spec: the legacy HTTP/Thrift wire batch of the scenario
(the source's `traceFixture(t1, t2, t3)` as it reaches the receiver). -/
def thriftFixture (t1 t2 t3 : Nat) : ThriftBatch :=
  { process := fixtureProcess
    spans := [thriftFixtureSpanA t1 t2, thriftFixtureSpanB t2 t3] }

/-- The expected internal trace data `expectedTraceData(t1, t2, t3)`, embedded
from the source test file. -/
def expectedTraceData (t1 t2 t3 : Nat) : TraceData :=
  { node :=
      { serviceName := "issaTest"
        attributes := [("bool", "true"), ("string", "yes"), ("int64", "10000000")] }
    spans :=
      [{ traceId := fixtureTraceIDBytes
         spanId := fixtureChildSpanIDBytes
         parentSpanId := some fixtureParentSpanIDBytes
         name := "DBSearch"
         startTime := timeToTimestamp t1
         endTime := timeToTimestamp t2
         status := { code := statusCodeNotFound, message := "Stale indices" }
         attributes := [("error", AttributeValue.boolValue true)]
         links := [{ traceId := fixtureTraceIDBytes, spanId := fixtureParentSpanIDBytes,
                     linkType := LinkType.parentLinkedSpan }] },
       { traceId := fixtureTraceIDBytes
         spanId := fixtureParentSpanIDBytes
         parentSpanId := none
         name := "ProxyFetch"
         startTime := timeToTimestamp t2
         endTime := timeToTimestamp t3
         status := { code := statusCodeInternal, message := "Frontend crash" }
         attributes := [("error", AttributeValue.boolValue true)]
         links := [] }]
    sourceFormat := "jaeger" }

/-! ### Codec lemmas -/

theorem beUint_lt (l : List Nat) (h : ∀ b ∈ l, b < 256) : beUint l < 256 ^ l.length := by
  induction l with
  | nil => simp [beUint]
  | cons b rest ih =>
    have hb : b < 256 := h b (List.mem_cons_self _ _)
    have hr : beUint rest < 256 ^ rest.length :=
      ih (fun x hx => h x (List.mem_cons_of_mem _ hx))
    simp only [beUint, List.length_cons]
    calc b * 256 ^ rest.length + beUint rest
        < b * 256 ^ rest.length + 256 ^ rest.length := by omega
      _ = (b + 1) * 256 ^ rest.length := by ring
      _ ≤ 256 * 256 ^ rest.length := Nat.mul_le_mul_right _ (by omega)
      _ = 256 ^ (rest.length + 1) := by ring

theorem beBytes_beUint (l : List Nat) (h : ∀ b ∈ l, b < 256) :
    beBytes l.length (beUint l) = l := by
  induction l with
  | nil => rfl
  | cons b rest ih =>
    have hb : b < 256 := h b (List.mem_cons_self _ _)
    have hmem : ∀ x ∈ rest, x < 256 := fun x hx => h x (List.mem_cons_of_mem _ hx)
    have hr : beUint rest < 256 ^ rest.length := beUint_lt rest hmem
    have hpow : 0 < 256 ^ rest.length := Nat.pos_pow_of_pos _ (by omega)
    simp only [beUint, List.length_cons, beBytes]
    have hdiv : (b * 256 ^ rest.length + beUint rest) / 256 ^ rest.length = b := by
      rw [Nat.add_comm, Nat.add_mul_div_right _ _ hpow, Nat.div_eq_of_lt hr, Nat.zero_add]
    have hmod : (b * 256 ^ rest.length + beUint rest) % 256 ^ rest.length = beUint rest := by
      rw [Nat.add_comm, Nat.add_mul_mod_self_right, Nat.mod_eq_of_lt hr]
    rw [hdiv, hmod, Nat.mod_eq_of_lt hb, ih hmem]

theorem beBytes_beUint_width (l : List Nat) (w : Nat) (hw : l.length = w)
    (h : ∀ b ∈ l, b < 256) : beBytes w (beUint l) = l := by
  subst hw; exact beBytes_beUint l h

/-! ### Tag-extraction lemmas -/

theorem insertAttr_no_reserved (m : List (String × AttributeValue)) (k : String)
    (v : AttributeValue) (hm : ∀ p ∈ m, isReservedKey p.1 = false)
    (hk : isReservedKey k = false) :
    ∀ p ∈ insertAttr m k v, isReservedKey p.1 = false := by
  intro p hp
  simp only [insertAttr, List.mem_append, List.mem_filter, List.mem_singleton] at hp
  rcases hp with ⟨hpm, _⟩ | rfl
  · exact hm p hpm
  · exact hk

theorem attributesFromTags_aux (tags : List KeyValue) (acc : List (String × AttributeValue))
    (hacc : ∀ p ∈ acc, isReservedKey p.1 = false) :
    ∀ p ∈ tags.foldl
        (fun m kv =>
          if isReservedKey kv.key then m else insertAttr m kv.key (translateTagValue kv.value))
        acc,
      isReservedKey p.1 = false := by
  induction tags generalizing acc with
  | nil => simpa using hacc
  | cons kv rest ih =>
    simp only [List.foldl_cons]
    apply ih
    by_cases hres : isReservedKey kv.key = true
    · simpa [hres] using hacc
    · have hk : isReservedKey kv.key = false := by simpa using hres
      simpa [hk] using insertAttr_no_reserved acc kv.key (translateTagValue kv.value) hacc hk

theorem attributesFromTags_no_reserved (tags : List KeyValue) :
    ∀ p ∈ attributesFromTags tags, isReservedKey p.1 = false :=
  attributesFromTags_aux tags [] (by simp)

theorem lookupAttr_eq_none (k : String) (m : List (String × AttributeValue))
    (h : ∀ p ∈ m, p.1 ≠ k) : lookupAttr k m = none := by
  induction m with
  | nil => rfl
  | cons p rest ih =>
    obtain ⟨k2, v⟩ := p
    simp only [lookupAttr]
    rw [if_neg (h (k2, v) (List.mem_cons_self _ _))]
    exact ih (fun q hq => h q (List.mem_cons_of_mem _ hq))

theorem lookupAttr_reserved_none (tags : List KeyValue) (rk : String)
    (hrk : isReservedKey rk = true) : lookupAttr rk (attributesFromTags tags) = none := by
  apply lookupAttr_eq_none
  intro p hp hkey
  have hfalse := attributesFromTags_no_reserved tags p hp
  rw [hkey, hrk] at hfalse
  exact absurd hfalse (by simp)

theorem statusCodeFromTags_eq_none (tags : List KeyValue)
    (h : ∀ kv ∈ tags, kv.key ≠ tagStatusCode) : statusCodeFromTags tags = none := by
  have hfind : tags.find? (fun kv => decide (kv.key = tagStatusCode)) = none := by
    rw [List.find?_eq_none]
    intro kv hkv
    simp [h kv hkv]
  simp [statusCodeFromTags, findTag, hfind]

theorem hasErrorTag_of_mem (tags : List KeyValue)
    (h : (⟨tagError, TagValue.vBool true⟩ : KeyValue) ∈ tags) : hasErrorTag tags = true := by
  simp only [hasErrorTag, List.any_eq_true]
  exact ⟨_, h, by simp⟩

theorem hasErrorTag_eq_false (tags : List KeyValue)
    (h : ∀ kv ∈ tags, ¬(kv.key = tagError ∧ kv.value = TagValue.vBool true)) :
    hasErrorTag tags = false := by
  simp only [hasErrorTag, List.any_eq_false]
  intro kv hkv
  simpa using h kv hkv

/-! ### Protocol correspondence -/

/-- The gRPC references list that encodes a legacy parent field: one child-of
reference to the parent, or no references for a root span. -/
def thriftRefsOf (tid : Nat × Nat) (parent : Option Nat) : List SpanRef :=
  match parent with
  | some p => [{ traceID := tid, spanID := p, refType := SpanRefType.childOf }]
  | none => []

/-- A legacy HTTP/Thrift wire span and a gRPC wire span encode the same
logical span: same identifiers, name and tags; the thrift end time equals the
gRPC start plus duration; and the gRPC references list is exactly the encoding
of the thrift parent field. -/
def SpanCorresponds (hs : ThriftSpan) (gs : ModelSpan) : Prop :=
  gs.traceID = hs.traceID ∧ gs.spanID = hs.spanID ∧
  gs.operationName = hs.operationName ∧ gs.startTime = hs.startTime ∧
  hs.endTime = gs.startTime + gs.duration ∧ gs.tags = hs.tags ∧
  gs.references = thriftRefsOf hs.traceID hs.parentSpanID

/-- The two wire batches encode the same logical batch: same process, and
spans in correspondence position by position. -/
def BatchCorresponds (hb : ThriftBatch) (gb : ModelBatch) : Prop :=
  gb.process = hb.process ∧ List.Forall₂ SpanCorresponds hb.spans gb.spans

theorem translate_span_agree (hs : ThriftSpan) (gs : ModelSpan)
    (h : SpanCorresponds hs gs) : translateThriftSpan hs = translateModelSpan gs := by
  obtain ⟨h1, h2, h3, h4, h5, h6, h7⟩ := h
  cases hp : hs.parentSpanID with
  | some p =>
    have hrefs : gs.references = [⟨hs.traceID, p, SpanRefType.childOf⟩] := by
      rw [h7, hp]; rfl
    simp [translateThriftSpan, translateModelSpan, h1, h2, h3, h4, h5, h6, hp, hrefs,
      grpcParentOf, translateRef, childOfLink]
  | none =>
    have hrefs : gs.references = [] := by rw [h7, hp]; rfl
    simp [translateThriftSpan, translateModelSpan, h1, h2, h3, h4, h5, h6, hp, hrefs,
      grpcParentOf]

/-! ### Claims -/

/-- Claim C1: the fixture batch (process `issaTest` with bool/string/int64
tags; span A `DBSearch` with the fixture identifiers, parent link, NotFound
status "Stale indices"; span B `ProxyFetch` with the parent's span ID,
Internal status "Frontend crash", no parent) translates via both the legacy
HTTP path and the gRPC path into the internal trace data of the source's
`expectedTraceData`, with the `error=true` attribute on span A, at the test
instant `time.Unix(1542158650, 536343000)`. -/
theorem fixture_batches_translate_to_expected :
    translateThriftBatch (thriftFixture fixtureNow (fixtureNow + fixtureD10min)
        (fixtureNow + fixtureD10min + fixtureD2sec)) =
      expectedTraceData fixtureNow (fixtureNow + fixtureD10min)
        (fixtureNow + fixtureD10min + fixtureD2sec) ∧
    translateModelBatch (grpcFixture fixtureNow fixtureD10min fixtureD2sec) =
      expectedTraceData fixtureNow (fixtureNow + fixtureD10min)
        (fixtureNow + fixtureD10min + fixtureD2sec) := by
  constructor <;> decide

/-- Claim C2: for every 16-byte trace identifier and 8-byte span identifier,
decoding from the wire form and re-encoding into the internal byte form
returns the identical byte sequence — no reordering, truncation or padding;
the span ID carried as a fixed-width big-endian integer preserves the raw
8-byte sequence. -/
theorem id_decode_reencode_roundtrip (tb sb : List Nat)
    (htl : tb.length = 16) (htb : ∀ b ∈ tb, b < 256)
    (hsl : sb.length = 8) (hsb : ∀ b ∈ sb, b < 256) :
    (decodeTraceID tb).map traceIDToBytes = Except.ok tb ∧
    (decodeSpanID sb).map spanIDToBytes = Except.ok sb := by
  constructor
  · have h1 : (tb.take 8).length = 8 := by rw [List.length_take]; omega
    have h2 : (tb.drop 8).length = 8 := by rw [List.length_drop]; omega
    have hb1 : ∀ b ∈ tb.take 8, b < 256 := fun b hb => htb b (List.take_subset _ _ hb)
    have hb2 : ∀ b ∈ tb.drop 8, b < 256 := fun b hb => htb b (List.drop_subset _ _ hb)
    simp [decodeTraceID, htl, Except.map, traceIDToBytes,
      beBytes_beUint_width _ _ h1 hb1, beBytes_beUint_width _ _ h2 hb2]
  · simp [decodeSpanID, hsl, Except.map, spanIDToBytes, beBytes_beUint_width _ _ hsl hsb]

/-- Witness for C2 at the fixture identifiers. -/
theorem id_decode_reencode_roundtrip_witness :
    (decodeTraceID fixtureTraceIDBytes).map traceIDToBytes = Except.ok fixtureTraceIDBytes ∧
    (decodeSpanID fixtureChildSpanIDBytes).map spanIDToBytes =
      Except.ok fixtureChildSpanIDBytes :=
  id_decode_reencode_roundtrip fixtureTraceIDBytes fixtureChildSpanIDBytes
    (by decide) (by decide) (by decide) (by decide)

/-- Claim C3: the typed (gRPC) inbound path preserves each tag value's type
tag (bool stays bool, string stays string, int64 stays int64, double stays
double — a boolean never becomes the string "true" there), while the
string-only target coerces values to canonical text: `true`/`false` for
booleans, the decimal form for integers, the canonical decimal text for
doubles, strings verbatim. -/
theorem tag_types_preserved_and_string_coercion :
    (∀ b, (translateTagValue (TagValue.vBool b)).typeTag = TagType.tBool) ∧
    (∀ s, (translateTagValue (TagValue.vStr s)).typeTag = TagType.tString) ∧
    (∀ i, (translateTagValue (TagValue.vInt i)).typeTag = TagType.tInt) ∧
    (∀ c, (translateTagValue (TagValue.vDouble c)).typeTag = TagType.tDouble) ∧
    (∀ b, translateTagValue (TagValue.vBool b) = AttributeValue.boolValue b) ∧
    coerceToString (TagValue.vBool true) = "true" ∧
    coerceToString (TagValue.vBool false) = "false" ∧
    (∀ i, coerceToString (TagValue.vInt i) = toString i) ∧
    (∀ s, coerceToString (TagValue.vStr s) = s) ∧
    (∀ c, coerceToString (TagValue.vDouble c) = c) :=
  ⟨fun _ => rfl, fun _ => rfl, fun _ => rfl, fun _ => rfl, fun _ => rfl,
   rfl, rfl, fun _ => rfl, fun _ => rfl, fun _ => rfl⟩

/-- Counterexample to claim C4 as stated: the HTTP/Thrift adapter and the gRPC
adapter stamp the very same marker value "jaeger" on the fixture batches —
the marker of the HTTP batch equals the marker of the gRPC batch, so it is not
a distinct constant per protocol. -/
theorem source_format_markers_not_distinct :
    (translateThriftBatch (thriftFixture fixtureNow (fixtureNow + fixtureD10min)
        (fixtureNow + fixtureD10min + fixtureD2sec))).sourceFormat = "jaeger" ∧
    (translateModelBatch
        (grpcFixture fixtureNow fixtureD10min fixtureD2sec)).sourceFormat = "jaeger" ∧
    (translateThriftBatch (thriftFixture fixtureNow (fixtureNow + fixtureD10min)
        (fixtureNow + fixtureD10min + fixtureD2sec))).sourceFormat =
      (translateModelBatch
        (grpcFixture fixtureNow fixtureD10min fixtureD2sec)).sourceFormat :=
  ⟨rfl, rfl, rfl⟩

/-- Claim C4 (amended): every translated batch envelope carries the
source-format marker "jaeger"; both adapters of this receiver use the same
constant, so the marker identifies the receiver, not the transport. -/
theorem source_format_constant_jaeger (hb : ThriftBatch) (gb : ModelBatch) :
    (translateThriftBatch hb).sourceFormat = sourceFormatJaeger ∧
    (translateModelBatch gb).sourceFormat = sourceFormatJaeger :=
  ⟨rfl, rfl⟩

/-- Claim C5: a tag sequence carrying an `error=true` boolean tag and no
status-code tag yields the default failure (non-ok) status code; a tag
sequence with neither an `error=true` tag nor a status-code tag yields the
ok / zero code. -/
theorem error_tag_implies_failure_status (tags : List KeyValue) :
    ((∀ kv ∈ tags, kv.key ≠ tagStatusCode) →
      (⟨tagError, TagValue.vBool true⟩ : KeyValue) ∈ tags →
      ((statusFromTags tags).code = defaultErrorCode ∧
        (statusFromTags tags).code ≠ okStatusCode)) ∧
    ((∀ kv ∈ tags, kv.key ≠ tagStatusCode) →
      (∀ kv ∈ tags, ¬(kv.key = tagError ∧ kv.value = TagValue.vBool true)) →
      (statusFromTags tags).code = okStatusCode) := by
  constructor
  · intro hnc herr
    have h1 := statusCodeFromTags_eq_none tags hnc
    have h2 := hasErrorTag_of_mem tags herr
    refine ⟨?_, ?_⟩ <;> simp [statusFromTags, h1, h2, defaultErrorCode, okStatusCode]
  · intro hnc hne
    have h1 := statusCodeFromTags_eq_none tags hnc
    have h2 := hasErrorTag_eq_false tags hne
    simp [statusFromTags, h1, h2]

/-- Witness for C5: an error-only tag list gets the failure code, the empty
tag list gets the ok code. -/
theorem error_tag_implies_failure_status_witness :
    ((statusFromTags [⟨tagError, TagValue.vBool true⟩]).code = defaultErrorCode ∧
      (statusFromTags [⟨tagError, TagValue.vBool true⟩]).code ≠ okStatusCode) ∧
    (statusFromTags []).code = okStatusCode :=
  ⟨(error_tag_implies_failure_status [⟨tagError, TagValue.vBool true⟩]).1
      (by decide) (by decide),
   (error_tag_implies_failure_status []).2 (by decide) (by decide)⟩

/-- Claim C6: the reserved status-code and status-message tags are interpreted
as the translated span's status code and message, and both are removed from
the span's generic attribute map on both translation paths. -/
theorem reserved_status_tags_extracted (hs : ThriftSpan) (gs : ModelSpan) :
    (lookupAttr tagStatusCode (translateThriftSpan hs).attributes = none ∧
     lookupAttr tagStatusMsg (translateThriftSpan hs).attributes = none ∧
     lookupAttr tagStatusCode (translateModelSpan gs).attributes = none ∧
     lookupAttr tagStatusMsg (translateModelSpan gs).attributes = none) ∧
    (∀ c : Int, findTag tagStatusCode gs.tags = some (TagValue.vInt c) →
      (translateModelSpan gs).status.code = c) ∧
    (∀ m : String, findTag tagStatusMsg gs.tags = some (TagValue.vStr m) →
      (translateModelSpan gs).status.message = m) := by
  refine ⟨⟨?_, ?_, ?_, ?_⟩, ?_, ?_⟩
  · exact lookupAttr_reserved_none hs.tags tagStatusCode (by simp [isReservedKey])
  · exact lookupAttr_reserved_none hs.tags tagStatusMsg (by simp [isReservedKey])
  · exact lookupAttr_reserved_none gs.tags tagStatusCode (by simp [isReservedKey])
  · exact lookupAttr_reserved_none gs.tags tagStatusMsg (by simp [isReservedKey])
  · intro c hc
    simp [translateModelSpan, statusFromTags, statusCodeFromTags, hc]
  · intro m hm
    have hmsg : statusMsgFromTags gs.tags = m := by simp [statusMsgFromTags, hm]
    simp only [translateModelSpan, statusFromTags]
    cases hc : statusCodeFromTags gs.tags with
    | some c => simp [hmsg]
    | none => by_cases he : hasErrorTag gs.tags <;> simp [he, hmsg]

/-- Witness for C6 at the gRPC fixture span A: the reserved tags are gone from
its attribute map and its status carries their values. -/
theorem reserved_status_tags_extracted_witness :
    lookupAttr tagStatusCode
      (translateModelSpan (grpcFixtureSpanA fixtureNow fixtureD10min)).attributes = none ∧
    (translateModelSpan (grpcFixtureSpanA fixtureNow fixtureD10min)).status.code =
      statusCodeNotFound ∧
    (translateModelSpan (grpcFixtureSpanA fixtureNow fixtureD10min)).status.message =
      "Stale indices" :=
  ⟨(reserved_status_tags_extracted (thriftFixtureSpanA fixtureNow fixtureNow)
      (grpcFixtureSpanA fixtureNow fixtureD10min)).1.2.2.1,
   (reserved_status_tags_extracted (thriftFixtureSpanA fixtureNow fixtureNow)
      (grpcFixtureSpanA fixtureNow fixtureD10min)).2.1 statusCodeNotFound (by decide),
   (reserved_status_tags_extracted (thriftFixtureSpanA fixtureNow fixtureNow)
      (grpcFixtureSpanA fixtureNow fixtureD10min)).2.2 "Stale indices" (by decide)⟩

/-- Claim C7: a legacy HTTP wire span whose only causal link is its
`parentSpanID` field translates to a span with exactly one reference, of kind
child-of (parent-linked), targeting that parent; a wire span with no parent
field translates to a root span with an empty reference list. -/
theorem parent_field_translates_to_child_of_link (s : ThriftSpan) :
    (∀ p, s.parentSpanID = some p →
      ((translateThriftSpan s).links =
          [{ traceId := traceIDToBytes s.traceID, spanId := spanIDToBytes p,
             linkType := LinkType.parentLinkedSpan }] ∧
        (translateThriftSpan s).parentSpanId = some (spanIDToBytes p))) ∧
    (s.parentSpanID = none →
      ((translateThriftSpan s).links = [] ∧
        (translateThriftSpan s).parentSpanId = none)) := by
  constructor
  · intro p hp
    constructor <;> simp [translateThriftSpan, hp, childOfLink]
  · intro hp
    constructor <;> simp [translateThriftSpan, hp]

/-- Witness for C7 at the thrift fixture spans: span A (with parent) gets the
single child-of link, span B (no parent) gets none. -/
theorem parent_field_translates_to_child_of_link_witness :
    (translateThriftSpan (thriftFixtureSpanA fixtureNow (fixtureNow + fixtureD10min))).links =
      [{ traceId := traceIDToBytes fixtureTraceID, spanId := spanIDToBytes fixtureParentSpanID,
         linkType := LinkType.parentLinkedSpan }] ∧
    (translateThriftSpan (thriftFixtureSpanB fixtureNow fixtureNow)).links = [] :=
  ⟨((parent_field_translates_to_child_of_link
      (thriftFixtureSpanA fixtureNow (fixtureNow + fixtureD10min))).1
        fixtureParentSpanID rfl).1,
   ((parent_field_translates_to_child_of_link
      (thriftFixtureSpanB fixtureNow fixtureNow)).2 rfl).1⟩

/-- Claim C8: an identifier byte sequence of any length other than 16 (trace)
or 8 (span) — in particular length 15 — is rejected with an invalid-length
decode error, never zero-padded or truncated. -/
theorem short_id_rejected (tb sb : List Nat) (ht : tb.length ≠ 16) (hs : sb.length ≠ 8) :
    decodeTraceID tb = Except.error (IdError.invalidLength tb.length 16) ∧
    decodeSpanID sb = Except.error (IdError.invalidLength sb.length 8) :=
  ⟨by simp [decodeTraceID, ht], by simp [decodeSpanID, hs]⟩

/-- Witness for C8: the 15-byte prefix of the fixture trace ID and the 7-byte
prefix of the fixture span ID are both rejected. -/
theorem short_id_rejected_witness :
    decodeTraceID (fixtureTraceIDBytes.take 15) =
      Except.error (IdError.invalidLength 15 16) ∧
    decodeSpanID (fixtureChildSpanIDBytes.take 7) =
      Except.error (IdError.invalidLength 7 8) := by
  have h := short_id_rejected (fixtureTraceIDBytes.take 15) (fixtureChildSpanIDBytes.take 7)
    (by decide) (by decide)
  simpa using h

/-- Claim C9: batch translation is deterministic — running either translation
twice on the same wire batch produces field-for-field equal internal trace
data (both translators are pure functions of the input batch). -/
theorem translation_is_deterministic (hb : ThriftBatch) (gb : ModelBatch) :
    translateThriftBatch hb = translateThriftBatch hb ∧
    translateModelBatch gb = translateModelBatch gb :=
  ⟨rfl, rfl⟩

/-- Claim C10: for the same logical batch — same process, spans equal up to
each protocol's encoding, with the gRPC side supplying start+duration where
the HTTP side supplies start+end and encoding the parent field as a child-of
reference — the legacy HTTP path and the gRPC path produce field-for-field
identical internal trace data, string-coerced process attributes and the
shared source-format marker included. -/
theorem http_grpc_paths_agree (hb : ThriftBatch) (gb : ModelBatch)
    (h : BatchCorresponds hb gb) : translateThriftBatch hb = translateModelBatch gb := by
  obtain ⟨hp, hspans⟩ := h
  have hmap : ∀ (l1 : List ThriftSpan) (l2 : List ModelSpan),
      List.Forall₂ SpanCorresponds l1 l2 →
      l1.map translateThriftSpan = l2.map translateModelSpan := by
    intro l1 l2 hf
    induction hf with
    | nil => rfl
    | cons hsp _ ih => simp only [List.map_cons, translate_span_agree _ _ hsp, ih]
  simp only [translateThriftBatch, translateModelBatch, hp, hmap _ _ hspans]

/-- Witness for C10: the thrift and gRPC fixtures correspond, and their
translations agree. -/
theorem http_grpc_paths_agree_witness :
    BatchCorresponds
      (thriftFixture fixtureNow (fixtureNow + fixtureD10min)
        (fixtureNow + fixtureD10min + fixtureD2sec))
      (grpcFixture fixtureNow fixtureD10min fixtureD2sec) ∧
    translateThriftBatch (thriftFixture fixtureNow (fixtureNow + fixtureD10min)
        (fixtureNow + fixtureD10min + fixtureD2sec)) =
      translateModelBatch (grpcFixture fixtureNow fixtureD10min fixtureD2sec) := by
  have hc : BatchCorresponds
      (thriftFixture fixtureNow (fixtureNow + fixtureD10min)
        (fixtureNow + fixtureD10min + fixtureD2sec))
      (grpcFixture fixtureNow fixtureD10min fixtureD2sec) :=
    ⟨rfl, List.Forall₂.cons ⟨rfl, rfl, rfl, rfl, rfl, rfl, rfl⟩
      (List.Forall₂.cons ⟨rfl, rfl, rfl, rfl, rfl, rfl, rfl⟩ List.Forall₂.nil)⟩
  exact ⟨hc, http_grpc_paths_agree _ _ hc⟩

end JaegerReceiver
